import Mathlib

/-!
Shallow embedding of `src/backend/impact_model.py` (Meteor-Madness).
Machine floats are modelled by real numbers; the formulas of the source
are transcribed literally over `ℝ`.
-/

namespace MeteorMadness

/-- Density of a stony asteroid in kg/m^3 (module constant of the source). -/
def ASTEROID_DENSITY_KGM3 : ℝ := 3500

/-- Conversion factor for Joules to Megatons of TNT (module constant of the source). -/
def JOULES_PER_MEGATON_TNT : ℝ := 4.184e15

/-- `np.radians`: degrees to radians. -/
noncomputable def radians (deg : ℝ) : ℝ := deg * Real.pi / 180

/-- The dict returned by `get_severity_details`. -/
structure SeverityDetails where
  band : String
  color : String
  actions : List String

/-- Embedding of `get_severity_details(energy_mt)`: the ordered if/elif chain
of the source, evaluated top-down. -/
noncomputable def get_severity_details (energy_mt : ℝ) : SeverityDetails :=
  if energy_mt < 0.1 then
    { band := "Local Event"
      color := "green"
      actions := ["Monitor official news.", "No immediate public action required."] }
  else if energy_mt < 10 then
    { band := "City Level Event"
      color := "yellow"
      actions := ["Shelter away from windows.", "Expect shockwave.", "Follow local authority instructions."] }
  else if energy_mt < 1000 then
    { band := "Regional Threat"
      color := "red"
      actions := ["Evacuate within precaution radius immediately.", "Seek high ground if in coastal area."] }
  else
    { band := "Global Event"
      color := "black"
      actions := ["This is a globally significant event.", "Follow national emergency broadcast instructions."] }

/-- The argument list of `calculate_impact_effects`. -/
structure ImpactRequest where
  diameter_m : ℝ
  impact_speed_m_s : ℝ
  impact_angle_deg : ℝ
  lat : ℝ
  lon : ℝ
  impact_body : String
  impact_in_water : Bool

/-- The nested `impact_coords` dict of the output. -/
structure ImpactCoords where
  lat : ℝ
  lon : ℝ

/-- The nested `crater_details` dict of the output. -/
structure CraterDetails where
  shape : String
  long_axis_m_est : ℝ
  short_axis_m_est : ℝ

/-- The nested `shockwave_effects` dict of the output. -/
structure ShockwaveEffects where
  is_airburst_risk : Bool
  damage_radius_km_est : ℝ
  description : String

/-- The full output dict assembled on the Earth branch of the source. -/
structure ImpactReport where
  impact_body : String
  impact_coords : ImpactCoords
  impact_in_water : Bool
  impact_energy_J : ℝ
  impact_energy_Mt : ℝ
  crater_details : CraterDetails
  precaution_radius_km_est : ℝ
  severity_band : String
  severity_color : String
  shockwave_effects : ShockwaveEffects
  tsunami_risk : Bool
  recommended_actions : List String
  confidence_pct : ℕ
  notes : String
  timestamp_utc : String

/-- `calculate_impact_effects` returns one of two dict shapes: the minimal
two-key dict of the non-Earth branch, or the full report. -/
inductive ImpactOutput where
  | minimal (impact_body : String) (notes : String)
  | full (report : ImpactReport)

/-- `volume_m3 = (4/3) * math.pi * (radius_m ** 3)` with `radius_m = diameter_m / 2`. -/
noncomputable def volume_m3 (r : ImpactRequest) : ℝ :=
  (4 / 3) * Real.pi * (r.diameter_m / 2) ^ 3

/-- `mass_kg = ASTEROID_DENSITY_KGM3 * volume_m3`. -/
noncomputable def mass_kg (r : ImpactRequest) : ℝ :=
  ASTEROID_DENSITY_KGM3 * volume_m3 r

/-- `kinetic_energy_J = 0.5 * mass_kg * (impact_speed_m_s ** 2)`. -/
noncomputable def kinetic_energy_J (r : ImpactRequest) : ℝ :=
  0.5 * mass_kg r * r.impact_speed_m_s ^ 2

/-- `impact_energy_Mt = kinetic_energy_J / JOULES_PER_MEGATON_TNT`. -/
noncomputable def impact_energy_Mt (r : ImpactRequest) : ℝ :=
  kinetic_energy_J r / JOULES_PER_MEGATON_TNT

/-- `base_crater_diameter_m = 90 * (impact_energy_Mt ** (1/3))`. -/
noncomputable def base_crater_diameter_m (r : ImpactRequest) : ℝ :=
  90 * impact_energy_Mt r ^ ((1 : ℝ) / 3)

/-- `crater_long_axis_m = base_crater_diameter_m / np.sin(np.radians(impact_angle_deg))`. -/
noncomputable def crater_long_axis_m (r : ImpactRequest) : ℝ :=
  base_crater_diameter_m r / Real.sin (radians r.impact_angle_deg)

/-- `crater_short_axis_m = base_crater_diameter_m`. -/
noncomputable def crater_short_axis_m (r : ImpactRequest) : ℝ :=
  base_crater_diameter_m r

/-- `precaution_radius_km = (3 * crater_long_axis_m) / 1000`. -/
noncomputable def precaution_radius_km (r : ImpactRequest) : ℝ :=
  (3 * crater_long_axis_m r) / 1000

/-- `is_airburst_risk = 0.1 <= impact_energy_Mt < 1000`. -/
noncomputable def is_airburst_risk (r : ImpactRequest) : Bool :=
  decide (0.1 ≤ impact_energy_Mt r ∧ impact_energy_Mt r < 1000)

/-- `shockwave_damage_radius_km`: `30 * (impact_energy_Mt ** (1/3))` when the
airburst flag is set, else the initial value `0`. -/
noncomputable def shockwave_damage_radius_km (r : ImpactRequest) : ℝ :=
  if is_airburst_risk r then 30 * impact_energy_Mt r ^ ((1 : ℝ) / 3) else 0

/-- `tsunami_risk = impact_in_water and impact_energy_Mt > 1`. -/
noncomputable def tsunami_risk (r : ImpactRequest) : Bool :=
  r.impact_in_water && decide (impact_energy_Mt r > 1)

/-- The output dict assembled in section 7 of the source; `now` stands for the
reading of the wall clock `datetime.datetime.utcnow().isoformat()`. -/
noncomputable def earthReport (now : String) (r : ImpactRequest) : ImpactReport :=
  { impact_body := "Earth"
    impact_coords := { lat := r.lat, lon := r.lon }
    impact_in_water := r.impact_in_water
    impact_energy_J := kinetic_energy_J r
    impact_energy_Mt := impact_energy_Mt r
    crater_details :=
      { shape := if r.impact_angle_deg < 80 then "oval" else "circular"
        long_axis_m_est := crater_long_axis_m r
        short_axis_m_est := crater_short_axis_m r }
    precaution_radius_km_est := precaution_radius_km r
    severity_band := (get_severity_details (impact_energy_Mt r)).band
    severity_color := (get_severity_details (impact_energy_Mt r)).color
    shockwave_effects :=
      { is_airburst_risk := is_airburst_risk r
        damage_radius_km_est := shockwave_damage_radius_km r
        description :=
          if is_airburst_risk r then
            "Widespread window breakage expected. Risk of injury from flying glass."
          else
            "Negligible atmospheric shockwave effects." }
    tsunami_risk := tsunami_risk r
    recommended_actions := (get_severity_details (impact_energy_Mt r)).actions
    confidence_pct := 75
    notes := "Prototype estimate based on simplified models. Not for official use."
    timestamp_utc := now ++ "Z" }

/-- Embedding of `calculate_impact_effects`: the initial-check branch on
`impact_body`, then the straight-line arithmetic of the Earth branch.  The
source performs no input validation and has no raise statement. -/
noncomputable def calculate_impact_effects (now : String) (r : ImpactRequest) : ImpactOutput :=
  if r.impact_body ≠ "Earth" then
    ImpactOutput.minimal r.impact_body ("No direct effect on Earth expected.")
  else
    ImpactOutput.full (earthReport now r)

/-- Replace the timestamp field by a fixed string, to compare two runs of the
calculator up to the clock. -/
def eraseTime : ImpactOutput → ImpactOutput
  | ImpactOutput.minimal b n => ImpactOutput.minimal b n
  | ImpactOutput.full rep => ImpactOutput.full { rep with timestamp_utc := "" }

/-- Position of a severity band name in the order Local < City Level < Regional < Global. -/
def band_index (band : String) : ℕ :=
  if band = "Local Event" then 0
  else if band = "City Level Event" then 1
  else if band = "Regional Threat" then 2
  else 3

/-- Claim C2: for every request whose `impact_body` is not `"Earth"`, the function
returns exactly the two-field dict with the body echoed and the fixed note. -/
theorem non_earth_minimal_report (now : String) (r : ImpactRequest)
    (h : r.impact_body ≠ "Earth") :
    calculate_impact_effects now r =
      ImpactOutput.minimal r.impact_body ("No direct effect on Earth expected.") := by
  simp [calculate_impact_effects, h]

/-- Witness for C2: the Mars request yields exactly the minimal two-field dict. -/
theorem non_earth_minimal_report_witness :
    calculate_impact_effects "2025-01-01T00:00:00"
        (ImpactRequest.mk 20 20000 45 55.15 61.40 "Mars" false) =
      ImpactOutput.minimal "Mars" ("No direct effect on Earth expected.") :=
  non_earth_minimal_report "2025-01-01T00:00:00"
    (ImpactRequest.mk 20 20000 45 55.15 61.40 "Mars" false) (by decide)

/-- Claim C1 (against the code): at diameter 20 m and impact angle 0° the source
raises nothing — it has no validation and no raise statement, runs the
arithmetic, and returns a full report, although the divisor
`sin(radians(0))` of the crater computation is zero. -/
theorem angle_zero_returns_full_report :
    (∃ rep, calculate_impact_effects "2025-01-01T00:00:00"
        (ImpactRequest.mk 20 20000 0 55.15 61.40 "Earth" false) = ImpactOutput.full rep) ∧
      Real.sin (radians 0) = 0 := by
  constructor
  · exact ⟨earthReport "2025-01-01T00:00:00"
        (ImpactRequest.mk 20 20000 0 55.15 61.40 "Earth" false),
      by simp [calculate_impact_effects]⟩
  · simp [radians]

/-- Claim C3: for every Earth-bound request the reported energy in Joules is
`0.5 * (3500 * (4/3)*pi*(d/2)^3) * v^2` and the Megaton field is exactly the
Joule field divided by `4.184e15`. -/
theorem energy_formula (now : String) (r : ImpactRequest) (h : r.impact_body = "Earth") :
    ∃ rep, calculate_impact_effects now r = ImpactOutput.full rep ∧
      rep.impact_energy_J =
        0.5 * (3500 * ((4 / 3) * Real.pi * (r.diameter_m / 2) ^ 3)) * r.impact_speed_m_s ^ 2 ∧
      rep.impact_energy_Mt = rep.impact_energy_J / 4.184e15 := by
  refine ⟨earthReport now r, by simp [calculate_impact_effects, h], ?_, ?_⟩
  · simp [earthReport, kinetic_energy_J, mass_kg, volume_m3, ASTEROID_DENSITY_KGM3]
  · simp [earthReport, impact_energy_Mt, JOULES_PER_MEGATON_TNT]

/-- Witness for C3 at the Chelyabinsk-like request. -/
theorem energy_formula_witness :
    ∃ rep, calculate_impact_effects "2025-01-01T00:00:00"
        (ImpactRequest.mk 20 20000 45 55.15 61.40 "Earth" false) = ImpactOutput.full rep ∧
      rep.impact_energy_J =
        0.5 * (3500 * ((4 / 3) * Real.pi * ((20 : ℝ) / 2) ^ 3)) * (20000 : ℝ) ^ 2 ∧
      rep.impact_energy_Mt = rep.impact_energy_J / 4.184e15 :=
  energy_formula "2025-01-01T00:00:00"
    (ImpactRequest.mk 20 20000 45 55.15 61.40 "Earth" false) rfl

/-- Claim C4: the severity classification is total on the reals, splits the line
at 0.1, 10 and 1000 into the four literal records of the source, and each of
the three boundary values falls in the higher band. -/
theorem severity_partition (e : ℝ) :
    (e < 0.1 → get_severity_details e =
      { band := "Local Event", color := "green",
        actions := ["Monitor official news.", "No immediate public action required."] }) ∧
    (0.1 ≤ e → e < 10 → get_severity_details e =
      { band := "City Level Event", color := "yellow",
        actions := ["Shelter away from windows.", "Expect shockwave.", "Follow local authority instructions."] }) ∧
    (10 ≤ e → e < 1000 → get_severity_details e =
      { band := "Regional Threat", color := "red",
        actions := ["Evacuate within precaution radius immediately.", "Seek high ground if in coastal area."] }) ∧
    (1000 ≤ e → get_severity_details e =
      { band := "Global Event", color := "black",
        actions := ["This is a globally significant event.", "Follow national emergency broadcast instructions."] }) ∧
    (get_severity_details 0.1).band = "City Level Event" ∧
    (get_severity_details 10).band = "Regional Threat" ∧
    (get_severity_details 1000).band = "Global Event" := by
  refine ⟨?_, ?_, ?_, ?_, ?_, ?_, ?_⟩ <;>
    · intros
      unfold get_severity_details
      split_ifs <;> first | rfl | linarith

/-- Witness for C4: the first band at energy 0.05. -/
theorem severity_partition_witness :
    get_severity_details 0.05 =
      { band := "Local Event", color := "green",
        actions := ["Monitor official news.", "No immediate public action required."] } :=
  (severity_partition 0.05).1 (by norm_num)

/-- Claim C5: for every Earth-bound request, the short axis is
`90 * Mt^(1/3)`, the long axis is the short axis over `sin(radians(angle))`,
the precaution radius is `3 * long / 1000` km, and the shape tag is oval
exactly below 80°. -/
theorem crater_formulas (now : String) (r : ImpactRequest) (h : r.impact_body = "Earth") :
    ∃ rep, calculate_impact_effects now r = ImpactOutput.full rep ∧
      rep.crater_details.short_axis_m_est = 90 * rep.impact_energy_Mt ^ ((1 : ℝ) / 3) ∧
      rep.crater_details.long_axis_m_est =
        rep.crater_details.short_axis_m_est / Real.sin (radians r.impact_angle_deg) ∧
      rep.precaution_radius_km_est = 3 * rep.crater_details.long_axis_m_est / 1000 ∧
      rep.crater_details.shape = (if r.impact_angle_deg < 80 then "oval" else "circular") := by
  refine ⟨earthReport now r, by simp [calculate_impact_effects, h], ?_, ?_, ?_, rfl⟩
  · simp [earthReport, crater_short_axis_m, base_crater_diameter_m]
  · simp [earthReport, crater_long_axis_m, crater_short_axis_m]
  · simp [earthReport, precaution_radius_km]

/-- Witness for C5 at the Chelyabinsk-like request. -/
theorem crater_formulas_witness :
    ∃ rep, calculate_impact_effects "2025-01-01T00:00:00"
        (ImpactRequest.mk 20 20000 45 55.15 61.40 "Earth" false) = ImpactOutput.full rep ∧
      rep.crater_details.short_axis_m_est = 90 * rep.impact_energy_Mt ^ ((1 : ℝ) / 3) ∧
      rep.crater_details.long_axis_m_est =
        rep.crater_details.short_axis_m_est / Real.sin (radians 45) ∧
      rep.precaution_radius_km_est = 3 * rep.crater_details.long_axis_m_est / 1000 ∧
      rep.crater_details.shape = (if (45 : ℝ) < 80 then "oval" else "circular") :=
  crater_formulas "2025-01-01T00:00:00"
    (ImpactRequest.mk 20 20000 45 55.15 61.40 "Earth" false) rfl

/-- Claim C6: for every valid Earth-bound request the long crater axis is at
least the short one, with equality exactly at a 90° impact angle. -/
theorem crater_axes_order (now : String) (r : ImpactRequest)
    (hbody : r.impact_body = "Earth")
    (hd : 0 < r.diameter_m) (hv : 0 < r.impact_speed_m_s)
    (ha0 : 0 < r.impact_angle_deg) (ha90 : r.impact_angle_deg ≤ 90) :
    ∃ rep, calculate_impact_effects now r = ImpactOutput.full rep ∧
      rep.crater_details.short_axis_m_est ≤ rep.crater_details.long_axis_m_est ∧
      (rep.crater_details.long_axis_m_est = rep.crater_details.short_axis_m_est ↔
        r.impact_angle_deg = 90) := by
  have hπ := Real.pi_pos
  have hx0 : 0 < radians r.impact_angle_deg := by
    unfold radians
    positivity
  have hxhalf : radians r.impact_angle_deg ≤ Real.pi / 2 := by
    unfold radians
    nlinarith
  have hxπ : radians r.impact_angle_deg < Real.pi := by nlinarith
  have hs : 0 < Real.sin (radians r.impact_angle_deg) :=
    Real.sin_pos_of_pos_of_lt_pi hx0 hxπ
  have hs1 : Real.sin (radians r.impact_angle_deg) ≤ 1 := Real.sin_le_one _
  have hMt : 0 < impact_energy_Mt r := by
    unfold impact_energy_Mt kinetic_energy_J mass_kg volume_m3 ASTEROID_DENSITY_KGM3
      JOULES_PER_MEGATON_TNT
    positivity
  have hb : 0 < base_crater_diameter_m r := by
    unfold base_crater_diameter_m
    positivity
  have hkey : Real.sin (radians r.impact_angle_deg) = 1 ↔ r.impact_angle_deg = 90 := by
    constructor
    · intro h1
      have hmem : radians r.impact_angle_deg ∈
          Set.Icc (-(Real.pi / 2)) (Real.pi / 2) := ⟨by linarith, hxhalf⟩
      have hmem2 : Real.pi / 2 ∈ Set.Icc (-(Real.pi / 2)) (Real.pi / 2) :=
        ⟨by linarith, le_refl _⟩
      have heq := Real.injOn_sin hmem hmem2 (by rw [h1, Real.sin_pi_div_two])
      unfold radians at heq
      have h2 : r.impact_angle_deg * Real.pi = 90 * Real.pi := by linarith
      exact mul_right_cancel₀ Real.pi_ne_zero h2
    · intro h1
      rw [h1]
      unfold radians
      rw [show (90 : ℝ) * Real.pi / 180 = Real.pi / 2 by ring, Real.sin_pi_div_two]
  refine ⟨earthReport now r, by simp [calculate_impact_effects, hbody], ?_, ?_⟩
  · show crater_short_axis_m r ≤ crater_long_axis_m r
    unfold crater_long_axis_m crater_short_axis_m
    rw [le_div_iff₀ hs]
    exact mul_le_of_le_one_right hb.le hs1
  · show crater_long_axis_m r = crater_short_axis_m r ↔ r.impact_angle_deg = 90
    unfold crater_long_axis_m crater_short_axis_m
    rw [div_eq_iff hs.ne']
    constructor
    · intro h1
      apply hkey.mp
      have h2 : base_crater_diameter_m r * 1 =
          base_crater_diameter_m r * Real.sin (radians r.impact_angle_deg) := by
        rw [mul_one]
        exact h1
      exact (mul_left_cancel₀ hb.ne' h2).symm
    · intro h1
      rw [hkey.mpr h1, mul_one]

/-- Witness for C6 at the Chelyabinsk-like request with a 45° angle. -/
theorem crater_axes_order_witness :
    ∃ rep, calculate_impact_effects "2025-01-01T00:00:00"
        (ImpactRequest.mk 20 20000 45 55.15 61.40 "Earth" false) = ImpactOutput.full rep ∧
      rep.crater_details.short_axis_m_est ≤ rep.crater_details.long_axis_m_est ∧
      (rep.crater_details.long_axis_m_est = rep.crater_details.short_axis_m_est ↔
        (45 : ℝ) = 90) :=
  crater_axes_order "2025-01-01T00:00:00"
    (ImpactRequest.mk 20 20000 45 55.15 61.40 "Earth" false) rfl
    (by norm_num) (by norm_num) (by norm_num) (by norm_num)

/-- Claim C7: the airburst flag is set exactly on `0.1 ≤ Mt < 1000`; the
shockwave radius is `30 * Mt^(1/3)` when set and `0` otherwise. -/
theorem shockwave_rules (now : String) (r : ImpactRequest) (h : r.impact_body = "Earth") :
    ∃ rep, calculate_impact_effects now r = ImpactOutput.full rep ∧
      (rep.shockwave_effects.is_airburst_risk = true ↔
        0.1 ≤ rep.impact_energy_Mt ∧ rep.impact_energy_Mt < 1000) ∧
      (rep.shockwave_effects.is_airburst_risk = true →
        rep.shockwave_effects.damage_radius_km_est =
          30 * rep.impact_energy_Mt ^ ((1 : ℝ) / 3)) ∧
      (rep.shockwave_effects.is_airburst_risk = false →
        rep.shockwave_effects.damage_radius_km_est = 0) := by
  refine ⟨earthReport now r, by simp [calculate_impact_effects, h], ?_, ?_, ?_⟩
  · show is_airburst_risk r = true ↔ 0.1 ≤ impact_energy_Mt r ∧ impact_energy_Mt r < 1000
    simp [is_airburst_risk]
  · intro hrisk
    have h2 : is_airburst_risk r = true := hrisk
    show shockwave_damage_radius_km r = 30 * impact_energy_Mt r ^ ((1 : ℝ) / 3)
    simp [shockwave_damage_radius_km, h2]
  · intro hrisk
    have h2 : is_airburst_risk r = false := hrisk
    show shockwave_damage_radius_km r = 0
    simp [shockwave_damage_radius_km, h2]

/-- Witness for C7 at the Chelyabinsk-like request. -/
theorem shockwave_rules_witness :
    ∃ rep, calculate_impact_effects "2025-01-01T00:00:00"
        (ImpactRequest.mk 20 20000 45 55.15 61.40 "Earth" false) = ImpactOutput.full rep ∧
      (rep.shockwave_effects.is_airburst_risk = true ↔
        0.1 ≤ rep.impact_energy_Mt ∧ rep.impact_energy_Mt < 1000) ∧
      (rep.shockwave_effects.is_airburst_risk = true →
        rep.shockwave_effects.damage_radius_km_est =
          30 * rep.impact_energy_Mt ^ ((1 : ℝ) / 3)) ∧
      (rep.shockwave_effects.is_airburst_risk = false →
        rep.shockwave_effects.damage_radius_km_est = 0) :=
  shockwave_rules "2025-01-01T00:00:00"
    (ImpactRequest.mk 20 20000 45 55.15 61.40 "Earth" false) rfl

/-- Claim C8: the tsunami flag is set exactly when the impact is in water and
the energy exceeds one megaton. -/
theorem tsunami_rule (now : String) (r : ImpactRequest) (h : r.impact_body = "Earth") :
    ∃ rep, calculate_impact_effects now r = ImpactOutput.full rep ∧
      (rep.tsunami_risk = true ↔ r.impact_in_water = true ∧ rep.impact_energy_Mt > 1) := by
  refine ⟨earthReport now r, by simp [calculate_impact_effects, h], ?_⟩
  show tsunami_risk r = true ↔ r.impact_in_water = true ∧ impact_energy_Mt r > 1
  simp [tsunami_risk]

/-- Witness for C8 at a water impact. -/
theorem tsunami_rule_witness :
    ∃ rep, calculate_impact_effects "2025-01-01T00:00:00"
        (ImpactRequest.mk 20 20000 45 55.15 61.40 "Earth" true) = ImpactOutput.full rep ∧
      (rep.tsunami_risk = true ↔ true = true ∧ rep.impact_energy_Mt > 1) :=
  tsunami_rule "2025-01-01T00:00:00"
    (ImpactRequest.mk 20 20000 45 55.15 61.40 "Earth" true) rfl

/-- Claim C9: two runs of the calculator on the same request agree on every
field except the timestamp; the timestamp is the clock reading plus `"Z"`. -/
theorem deterministic_up_to_clock (t1 t2 : String) (r : ImpactRequest) :
    eraseTime (calculate_impact_effects t1 r) = eraseTime (calculate_impact_effects t2 r) ∧
      ∀ t : String, (earthReport t r).timestamp_utc = t ++ "Z" := by
  constructor
  · unfold calculate_impact_effects
    split_ifs with h
    · rfl
    · rfl
  · intro t
    rfl

/-- The severity bands order the line; band position of the result of
`get_severity_details` is monotone in the energy. -/
theorem band_index_mono (e1 e2 : ℝ) (h : e1 ≤ e2) :
    band_index (get_severity_details e1).band ≤ band_index (get_severity_details e2).band := by
  unfold get_severity_details
  split_ifs <;> simp [band_index] <;> linarith

/-- Claim C10: the megaton energy is strictly increasing in the diameter and in
the speed on positive inputs, and the severity band position is therefore
non-decreasing in each. -/
theorem energy_monotone (r : ImpactRequest) (d1 d2 v1 v2 : ℝ)
    (hd1 : 0 < d1) (hv1 : 0 < v1) :
    (d1 < d2 →
      impact_energy_Mt { r with diameter_m := d1, impact_speed_m_s := v1 } <
        impact_energy_Mt { r with diameter_m := d2, impact_speed_m_s := v1 }) ∧
    (v1 < v2 →
      impact_energy_Mt { r with diameter_m := d1, impact_speed_m_s := v1 } <
        impact_energy_Mt { r with diameter_m := d1, impact_speed_m_s := v2 }) ∧
    (d1 < d2 →
      band_index (get_severity_details
          (impact_energy_Mt { r with diameter_m := d1, impact_speed_m_s := v1 })).band ≤
        band_index (get_severity_details
          (impact_energy_Mt { r with diameter_m := d2, impact_speed_m_s := v1 })).band) ∧
    (v1 < v2 →
      band_index (get_severity_details
          (impact_energy_Mt { r with diameter_m := d1, impact_speed_m_s := v1 })).band ≤
        band_index (get_severity_details
          (impact_energy_Mt { r with diameter_m := d1, impact_speed_m_s := v2 })).band) := by
  have hπ := Real.pi_pos
  have hmono_d : d1 < d2 →
      impact_energy_Mt { r with diameter_m := d1, impact_speed_m_s := v1 } <
        impact_energy_Mt { r with diameter_m := d2, impact_speed_m_s := v1 } := by
    intro hlt
    unfold impact_energy_Mt kinetic_energy_J mass_kg volume_m3 ASTEROID_DENSITY_KGM3
      JOULES_PER_MEGATON_TNT
    simp only
    gcongr
  have hmono_v : v1 < v2 →
      impact_energy_Mt { r with diameter_m := d1, impact_speed_m_s := v1 } <
        impact_energy_Mt { r with diameter_m := d1, impact_speed_m_s := v2 } := by
    intro hlt
    unfold impact_energy_Mt kinetic_energy_J mass_kg volume_m3 ASTEROID_DENSITY_KGM3
      JOULES_PER_MEGATON_TNT
    simp only
    gcongr
  exact ⟨hmono_d, hmono_v,
    fun hlt => band_index_mono _ _ (hmono_d hlt).le,
    fun hlt => band_index_mono _ _ (hmono_v hlt).le⟩

/-- Witness for C10 at diameters 1 < 2 and speeds 1 < 2. -/
theorem energy_monotone_witness :
    ((1 : ℝ) < 2 →
      impact_energy_Mt (ImpactRequest.mk 1 1 45 0 0 "Earth" false) <
        impact_energy_Mt (ImpactRequest.mk 2 1 45 0 0 "Earth" false)) ∧
    ((1 : ℝ) < 2 →
      impact_energy_Mt (ImpactRequest.mk 1 1 45 0 0 "Earth" false) <
        impact_energy_Mt (ImpactRequest.mk 1 2 45 0 0 "Earth" false)) ∧
    ((1 : ℝ) < 2 →
      band_index (get_severity_details
          (impact_energy_Mt (ImpactRequest.mk 1 1 45 0 0 "Earth" false))).band ≤
        band_index (get_severity_details
          (impact_energy_Mt (ImpactRequest.mk 2 1 45 0 0 "Earth" false))).band) ∧
    ((1 : ℝ) < 2 →
      band_index (get_severity_details
          (impact_energy_Mt (ImpactRequest.mk 1 1 45 0 0 "Earth" false))).band ≤
        band_index (get_severity_details
          (impact_energy_Mt (ImpactRequest.mk 1 2 45 0 0 "Earth" false))).band) :=
  energy_monotone (ImpactRequest.mk 1 1 45 0 0 "Earth" false) 1 2 1 2
    (by norm_num) (by norm_num)

end MeteorMadness
